import Mathlib

/-!
Shallow embedding of `executor_linux.h` (syzkaller fork executor, Linux
OS layer) and verification of the specification's claims about it.

Machine integers (`__u64`, `unsigned`, `int`) are modelled as `Nat` with
explicit bounds (`< 2 ^ 64`, `< 2 ^ 32`) where the width matters; signed
results are `Int`.  Stateful operations are modelled as explicit state
passing.  Each definition is translated from the corresponding source
function; line references point into `src/executor/executor_linux.h`.
-/

namespace ExecutorLinux

/-! ## Remote handle codec (lines 47-57) -/

/-- `#define KCOV_SUBSYSTEM_COMMON (0x00ull << 56)` -/
def KCOV_SUBSYSTEM_COMMON : Nat := 0x00 <<< 56

/-- `#define KCOV_SUBSYSTEM_USB (0x01ull << 56)` -/
def KCOV_SUBSYSTEM_USB : Nat := 0x01 <<< 56

/-- `#define KCOV_SUBSYSTEM_MASK (0xffull << 56)` -/
def KCOV_SUBSYSTEM_MASK : Nat := 0xff <<< 56

/-- `#define KCOV_INSTANCE_MASK (0xffffffffull)` -/
def KCOV_INSTANCE_MASK : Nat := 0xffffffff

/-- All 64 bits set; `~m` on a C `unsigned long long` is `U64_MAX ^^^ m`. -/
def U64_MAX : Nat := 2 ^ 64 - 1

/-- `kcov_remote_handle` (lines 53-57):
`if (subsys & ~KCOV_SUBSYSTEM_MASK || inst & ~KCOV_INSTANCE_MASK) return 0;
 return subsys | inst;`
Arguments are `__u64` values, i.e. naturals below `2 ^ 64`. -/
def kcov_remote_handle (subsys inst : Nat) : Nat :=
  if subsys &&& (U64_MAX ^^^ KCOV_SUBSYSTEM_MASK) ≠ 0 ∨
     inst &&& (U64_MAX ^^^ KCOV_INSTANCE_MASK) ≠ 0 then 0
  else subsys ||| inst

/-- Decode step used by the spec's round-trip property: the top byte of a
handle (the subsystem field). -/
def handle_subsys (h : Nat) : Nat := h >>> 56

/-- Decode step used by the spec's round-trip property: the low 32 bits of a
handle (the instance field). -/
def handle_inst (h : Nat) : Nat := h &&& 0xffffffff

end ExecutorLinux

namespace ExecutorLinux

/-! ### Bit-level helper lemmas for the codec -/

theorem inv_subsystem_mask_eq : U64_MAX ^^^ KCOV_SUBSYSTEM_MASK = 2 ^ 56 - 1 := by
  decide

theorem inv_instance_mask_eq :
    U64_MAX ^^^ KCOV_INSTANCE_MASK = 0xffffffff00000000 := by
  decide

theorem and_low56_eq_mod (s : Nat) : s &&& (2 ^ 56 - 1) = s % 2 ^ 56 :=
  Nat.and_pow_two_sub_one_eq_mod s 56

theorem shifted_and_low56 (s : Nat) : (s <<< 56) &&& (2 ^ 56 - 1) = 0 := by
  rw [and_low56_eq_mod, Nat.shiftLeft_eq, Nat.mul_mod_left]

theorem small_and_high32 {i : Nat} (hi : i < 2 ^ 32) :
    i &&& 0xffffffff00000000 = 0 := by
  have h1 : i &&& (2 ^ 32 - 1) = i := Nat.and_pow_two_sub_one_of_lt_two_pow hi
  calc i &&& 0xffffffff00000000
      = (i &&& (2 ^ 32 - 1)) &&& 0xffffffff00000000 := by rw [h1]
    _ = i &&& ((2 ^ 32 - 1) &&& 0xffffffff00000000) := Nat.and_assoc ..
    _ = i &&& 0 := by rw [show ((2 : Nat) ^ 32 - 1) &&& 0xffffffff00000000 = 0 from by decide]
    _ = 0 := Nat.and_zero i

theorem high32_and_ne_zero {i : Nat} (hlt : i < 2 ^ 64) (hge : 2 ^ 32 ≤ i) :
    i &&& 0xffffffff00000000 ≠ 0 := by
  intro hzero
  have h64 : i &&& (2 ^ 64 - 1) = i := Nat.and_pow_two_sub_one_of_lt_two_pow hlt
  have hsplit : (2 ^ 64 - 1 : Nat) = 0xffffffff00000000 ||| (2 ^ 32 - 1) := by decide
  have : i = i % 2 ^ 32 := by
    calc i = i &&& (2 ^ 64 - 1) := h64.symm
      _ = i &&& (0xffffffff00000000 ||| (2 ^ 32 - 1)) := by rw [hsplit]
      _ = (i &&& 0xffffffff00000000) ||| (i &&& (2 ^ 32 - 1)) :=
          Nat.and_or_distrib_left ..
      _ = 0 ||| (i &&& (2 ^ 32 - 1)) := by rw [hzero]
      _ = i &&& (2 ^ 32 - 1) := Nat.zero_or _
      _ = i % 2 ^ 32 := Nat.and_pow_two_sub_one_eq_mod i 32
  have := Nat.mod_lt i (y := 2 ^ 32) (by norm_num)
  omega

theorem or_eq_zero_iff {a b : Nat} : a ||| b = 0 ↔ a = 0 ∧ b = 0 := by
  constructor
  · intro h
    constructor
    · refine Nat.eq_of_testBit_eq fun j => ?_
      have := congrArg (fun x => Nat.testBit x j) h
      simp only [Nat.testBit_or, Nat.zero_testBit, Bool.or_eq_false_iff] at this
      simp [this.1]
    · refine Nat.eq_of_testBit_eq fun j => ?_
      have := congrArg (fun x => Nat.testBit x j) h
      simp only [Nat.testBit_or, Nat.zero_testBit, Bool.or_eq_false_iff] at this
      simp [this.2]
  · rintro ⟨rfl, rfl⟩
    rfl

theorem shifted_or_eq_add {s i : Nat} (hi : i < 2 ^ 32) :
    (s <<< 56) ||| i = 2 ^ 56 * s + i := by
  have hi' : i < 2 ^ 56 := lt_trans hi (by norm_num)
  rw [Nat.shiftLeft_eq, Nat.mul_comm, ← Nat.mul_add_lt_is_or hi' s]

end ExecutorLinux

namespace ExecutorLinux

/-! ## Coverage engine state (lines 86-187)

In this fork the coverage device is the file `/dev/cov`: `cover_open` maps
it, `cover_reset` zeroes the first 64-bit word of the mapped buffer, and
`cover_collect` derives the entry count from the file's current size. -/

/-- Observable results of `cover_open` (lines 86-121) on the happy path
(device present, `dup2`/`mmap`/`system` succeed): the values written to the
globals `cover_size` (line 100) and `mmap_alloc_size` (line 104), the length
argument passed to `mmap` (line 113), and the element offset of
`cov->data_end` past `cov->data` (line 119). -/
structure cover_open_result where
  cover_size : Nat
  mmap_alloc_size : Nat
  mmap_length : Nat
  data_end_offset : Nat
  deriving DecidableEq, Repr

/-- `cover_open` (lines 86-121): sets `cover_size = 640000`, sets
`mmap_alloc_size = cover_size * (is_kernel_64_bit ? 8 : 4)`, calls
`mmap(NULL, cover_size, ...)`, and sets `cov->data_end = cov->data +
cover_size`. -/
def cover_open (is_kernel_64_bit : Bool) : cover_open_result :=
  { cover_size := 640000
    mmap_alloc_size := 640000 * (if is_kernel_64_bit then 8 else 4)
    mmap_length := 640000
    data_end_offset := 640000 }

/-- State of one coverage context together with the `/dev/cov` file:
`filesize` is the current byte size of `/dev/cov`; `counter` is the live
entry counter held in the first machine word of `cov->data`; `size` is the
field `cov->size`; `enabled` records whether tracing is enabled for the
context. -/
structure cov_state where
  filesize : Nat
  counter : Nat
  size : Nat
  enabled : Bool
  deriving DecidableEq, Repr

/-- `cover_collect` (lines 175-185): reopens `/dev/cov`, seeks to its end,
takes `filesize = ftell(fp)` and stores `cov->size = filesize / 32`.  It
reads neither the mapped buffer nor its head counter and issues no disable
control. -/
def cover_collect (s : cov_state) : cov_state :=
  { s with size := s.filesize / 32 }

/-- Environment action: the kernel records one traced instruction, which
increments the live entry counter at the head of the buffer (data model §3:
"first machine word is a live entry counter"). -/
def trace_one_entry (s : cov_state) : cov_state :=
  { s with counter := s.counter + 1 }

/-- Buffer effect of `cover_reset` (line 172): `*(uint64*)cov->data = 0`,
i.e. the live entry counter is zeroed. -/
def cover_reset_buffer (s : cov_state) : cov_state :=
  { s with counter := 0 }

/-- Control-flow outcomes of `cover_reset` (lines 163-173). -/
inductive reset_outcome where
  /-- `!flag_coverage`: early return, nothing happens (lines 165-166). -/
  | skipped : reset_outcome
  /-- `cov == 0 && current_cover == 0`: `fail(...)` aborts (line 169). -/
  | fatal_no_context : reset_outcome
  /-- `*(uint64*)cov->data = 0` on the resolved context (line 172). -/
  | zeroed : Nat → reset_outcome
  deriving DecidableEq, Repr

/-- `cover_reset` (lines 163-173).  `cov` is the argument (`none` models the
null pointer), `current_cover` the thread-local active context.  Contexts
are identified by a `Nat` tag. -/
def cover_reset (flag_coverage : Bool) (cov current_cover : Option Nat) :
    reset_outcome :=
  if !flag_coverage then .skipped
  else
    match cov with
    | none =>
      match current_cover with
      | none => .fatal_no_context
      | some c => .zeroed c
    | some c => .zeroed c

/-- `cover_check` (line 187): `return true;` for every pc. -/
def cover_check (pc : Nat) : Bool := true

/-! ## Syscall executor (lines 71-84) -/

/-- The parts of `call_t` that `execute_syscall` inspects: whether
`c->call` is non-null (a custom invocation routine) and the descriptor
name `c->name`. -/
structure call_t where
  has_custom_call : Bool
  name : String
  deriving DecidableEq, Repr

/-- Linux `EINVAL`. -/
def EINVAL : Nat := 22

/-- `execute_syscall` (lines 71-84), as a function from the raw outcome of
the invocation (return value `res` and the errno value the kernel left set)
to the reported outcome: if `c->call` is set, the custom routine's result is
returned untouched; otherwise, after the raw syscall,
`if (!flag_coverage && res == -1 && !strcmp(c->name, "prctl")) errno = EINVAL;`. -/
def execute_syscall (flag_coverage : Bool) (c : call_t) (res : Int)
    (errno_in : Nat) : Int × Nat :=
  if c.has_custom_call then (res, errno_in)
  else if !flag_coverage && (res == -1) && (c.name == "prctl") then (res, EINVAL)
  else (res, errno_in)

/-! ## Bitness detector (lines 199-219) -/

/-- `detect_kernel_bitness` (lines 199-219).  `ptr_size` is
`sizeof(void *)` of the executor binary; `kallsyms` is the byte content of
`/proc/kallsyms` (`none` when the open fails).  The code reads a 16-byte
buffer and reports 32-bit exactly when the read returns all 16 bytes and
`buf[8]` is a space (32) or tab (9); in every other case `wide` stays
`true`. -/
def detect_kernel_bitness (ptr_size : Nat) (kallsyms : Option (List Nat)) :
    Bool :=
  if ptr_size = 8 then true
  else
    match kallsyms with
    | none => true
    | some buf =>
      if 16 ≤ buf.length ∧ (buf.getD 8 0 = 32 ∨ buf.getD 8 0 = 9) then false
      else true

/-! ## Termination primitive (lines 232-237) -/

/-- Loop condition of `for (i = 0;; i++) {}` (line 235): an omitted
`for` condition is the constant `true`. -/
def doexit_loop_cond (i : Nat) : Bool := true

/-- Fuelled evaluation of the loop `for (i = 0;; i++) {}` over the volatile
32-bit counter `i`.  `some ()` means the loop exited and control flowed past
it; `none` means the loop is still running after `fuel` iterations. -/
def doexit_loop (fuel i : Nat) : Option Unit :=
  match fuel with
  | 0 => none
  | fuel + 1 =>
    if doexit_loop_cond i then doexit_loop fuel ((i + 1) % 2 ^ 32) else some ()

/-- `doexit` (lines 232-237): issue `syscall(__NR_exit_group, status)`
directly; if the process is still alive afterwards, run the infinite loop.
`exit_group_terminates` says whether the raw exit request killed the
process (it can be blocked, e.g. by a seccomp filter).  The result is
`some ()` exactly if control returns to the caller within `fuel` loop
steps; `none` otherwise (process gone, or loop still running). -/
def doexit (exit_group_terminates : Bool) (status : Int) (fuel : Nat) :
    Option Unit :=
  if exit_group_terminates then none
  else doexit_loop fuel 0

/-! ## Control-structure layouts (lines 18-38)

C struct layout under the Itanium ABI used on Linux: each field is placed
at the next offset aligned to the field's alignment, the struct's alignment
is the maximum field alignment, and the total size is the end offset
rounded up to the struct's alignment. -/

/-- Size and alignment of one C struct field. -/
structure CField where
  size : Nat
  align : Nat
  deriving DecidableEq, Repr

/-- Round `off` up to the next multiple of `align`. -/
def alignUp (off align : Nat) : Nat := ((off + align - 1) / align) * align

/-- Place one field: advance the offset to the field's alignment and past
its size, and join its alignment into the struct's alignment. -/
def layoutStep (acc : Nat × Nat) (f : CField) : Nat × Nat :=
  (alignUp acc.1 f.align + f.size, max acc.2 f.align)

/-- `sizeof` of a C struct with the given field list. -/
def struct_size (fields : List CField) : Nat :=
  let r := fields.foldl layoutStep (0, 1)
  alignUp r.1 r.2

/-- A C `unsigned int` on Linux: 4 bytes, 4-byte aligned. -/
def c_unsigned : CField := { size := 4, align := 4 }

/-- `struct uint64_aligned64 { uint64 v; } __attribute__((aligned(8)))`
(lines 26-28). -/
def uint64_aligned64 : CField := { size := 8, align := 8 }

/-- `struct uint64_aligned32 { uint64 v; } __attribute__((packed, aligned(4)))`
(lines 30-32). -/
def uint64_aligned32 : CField := { size := 8, align := 4 }

/-- Field list of `kcov_remote_arg<kernel_u64_t, N>` (lines 18-24):
`unsigned trace_mode; unsigned area_size; unsigned num_handles;
kernel_u64_t common_handle; kernel_u64_t handles[N];`. -/
def kcov_remote_arg_fields (u64 : CField) (N : Nat) : List CField :=
  [c_unsigned, c_unsigned, c_unsigned, u64] ++ List.replicate N u64

/-- `sizeof(kcov_remote_arg32)` where
`kcov_remote_arg32 = kcov_remote_arg<uint64_aligned32, 0>` (line 34). -/
def kcov_remote_arg32_sizeof : Nat :=
  struct_size (kcov_remote_arg_fields uint64_aligned32 0)

/-- `sizeof(kcov_remote_arg64)` where
`kcov_remote_arg64 = kcov_remote_arg<uint64_aligned64, 0>` (line 35). -/
def kcov_remote_arg64_sizeof : Nat :=
  struct_size (kcov_remote_arg_fields uint64_aligned64 0)

end ExecutorLinux

namespace ExecutorLinux

/-! ## Helper lemmas for the claim theorems -/

theorem doexit_loop_none (fuel : Nat) : ∀ i, doexit_loop fuel i = none := by
  induction fuel with
  | zero => intro i; rfl
  | succ fuel ih =>
    intro i
    simp only [doexit_loop, doexit_loop_cond, if_true]
    exact ih _

end ExecutorLinux

namespace ExecutorLinux

/-! ## Claim theorems -/

/-- C1, counterexample: start from a state with `/dev/cov` empty
(`filesize = 0`), reset the context and let the kernel record one traced
instruction, so the live entry counter at the head of the buffer is `1`;
`cover_collect` nevertheless stores `collected_size = 0`, refuting both
"stores the number of valid entries recorded since that reset" and
"collect yields collected_size >= 1". -/
theorem cover_collect_claim_cex :
    (trace_one_entry (cover_reset_buffer
      { filesize := 0, counter := 5, size := 7, enabled := true })).counter = 1 ∧
    (cover_collect (trace_one_entry (cover_reset_buffer
      { filesize := 0, counter := 5, size := 7, enabled := true }))).size = 0 ∧
    ¬ 1 ≤ (cover_collect (trace_one_entry (cover_reset_buffer
      { filesize := 0, counter := 5, size := 7, enabled := true }))).size := by
  decide

/-- C1 (amended): `cover_collect` stores in `collected_size` the current
byte size of `/dev/cov` divided by 32; the value is independent of the live
entry counter at the head of the buffer, and the collection neither
modifies the counter nor disables tracing. -/
theorem cover_collect_spec (s : cov_state) :
    (cover_collect s).size = s.filesize / 32 ∧
    (cover_collect s).counter = s.counter ∧
    (cover_collect s).enabled = s.enabled ∧
    (cover_collect s).filesize = s.filesize :=
  ⟨rfl, rfl, rfl, rfl⟩

/-- C2, counterexample: on a 64-bit kernel the claim demands a mapping of
`capacity * 8` bytes, but `cover_open` passes `cover_size = 640000` to
`mmap`, not `640000 * 8`. -/
theorem cover_open_claim_cex :
    (cover_open true).mmap_length = 640000 ∧
    (cover_open true).cover_size * 8 = 5120000 ∧
    (cover_open true).mmap_length ≠ (cover_open true).cover_size * 8 := by
  decide

/-- C2 (amended): `cover_open` fixes the entry capacity `cover_size` at
640000, computes `mmap_alloc_size` as capacity times the bitness-dependent
entry width (8 bytes on a 64-bit kernel, 4 on 32-bit), but maps the shared
buffer with length equal to `cover_size` itself, independent of the entry
width, and records `data_end` as `data + cover_size` elements. -/
theorem cover_open_spec (b : Bool) :
    cover_open b =
      { cover_size := 640000
        mmap_alloc_size := 640000 * (if b then 8 else 4)
        mmap_length := 640000
        data_end_offset := 640000 } := by
  cases b <;> rfl

/-- C3, counterexample: `kcov_remote_handle` expects the subsystem argument
already shifted into the top byte.  For the raw subsystem id `1` the guard
`subsys & ~KCOV_SUBSYSTEM_MASK` is non-zero, so `encode(1, 0xFFFFFFFF)`
returns `0`, not `(1 << 56) | 0xFFFFFFFF`, and the round trip fails at
`(1, 0)` as well. -/
theorem kcov_remote_handle_claim_cex :
    kcov_remote_handle 1 0xffffffff = 0 ∧
    kcov_remote_handle 1 0xffffffff ≠ (1 <<< 56) ||| 0xffffffff ∧
    (handle_subsys (kcov_remote_handle 1 0),
      handle_inst (kcov_remote_handle 1 0)) ≠ (1, 0) := by
  decide

/-- C3 (amended): for every subsystem id `s < 256` and instance
`i < 2 ^ 32`, encoding with the subsystem id placed in the top byte
(`s <<< 56`, as the callers' `KCOV_SUBSYSTEM_*` constants do) yields
`(s <<< 56) ||| i`, and decoding that handle by extracting the top byte and
the low 32 bits gives `(s, i)` back. -/
theorem kcov_remote_handle_roundtrip (s i : Nat) (hs : s < 256)
    (hi : i < 2 ^ 32) :
    kcov_remote_handle (s <<< 56) i = (s <<< 56) ||| i ∧
    handle_subsys (kcov_remote_handle (s <<< 56) i) = s ∧
    handle_inst (kcov_remote_handle (s <<< 56) i) = i := by
  have hguard1 : (s <<< 56) &&& (U64_MAX ^^^ KCOV_SUBSYSTEM_MASK) = 0 := by
    rw [inv_subsystem_mask_eq]; exact shifted_and_low56 s
  have hguard2 : i &&& (U64_MAX ^^^ KCOV_INSTANCE_MASK) = 0 := by
    rw [inv_instance_mask_eq]; exact small_and_high32 hi
  have hval : kcov_remote_handle (s <<< 56) i = (s <<< 56) ||| i := by
    unfold kcov_remote_handle
    rw [if_neg]
    push_neg
    exact ⟨hguard1, hguard2⟩
  have hor : (s <<< 56) ||| i = 2 ^ 56 * s + i := shifted_or_eq_add hi
  refine ⟨hval, ?_, ?_⟩
  · unfold handle_subsys
    rw [hval, hor, Nat.shiftRight_eq_div_pow,
      Nat.mul_add_div (by norm_num : 0 < 2 ^ 56),
      Nat.div_eq_of_lt (lt_trans hi (by norm_num)), Nat.add_zero]
  · unfold handle_inst
    rw [hval, hor, show (0xffffffff : Nat) = 2 ^ 32 - 1 from rfl,
      Nat.and_pow_two_sub_one_eq_mod,
      show (2 : Nat) ^ 56 * s = 2 ^ 32 * (2 ^ 24 * s) from by ring,
      Nat.mul_add_mod, Nat.mod_eq_of_lt hi]

/-- C3 witness: the amended round trip at the concrete input
`(s, i) = (1, 0xFFFFFFFF)`. -/
theorem kcov_remote_handle_roundtrip_witness :
    handle_subsys (kcov_remote_handle (1 <<< 56) 0xffffffff) = 1 ∧
    handle_inst (kcov_remote_handle (1 <<< 56) 0xffffffff) = 0xffffffff :=
  ⟨(kcov_remote_handle_roundtrip 1 0xffffffff (by decide) (by decide)).2.1,
   (kcov_remote_handle_roundtrip 1 0xffffffff (by decide) (by decide)).2.2⟩

/-- C4, counterexample: with coverage collection disabled
(`flag_coverage = false`), calling `cover_reset` with a null context while
no context is active returns at the early `if (!flag_coverage) return;` and
does not abort. -/
theorem cover_reset_claim_cex :
    cover_reset false none none = reset_outcome.skipped ∧
    cover_reset false none none ≠ reset_outcome.fatal_no_context := by
  decide

/-- C4 (amended): when whole-run coverage collection is enabled, calling
`cover_reset` with no context argument while no context is active fails
fatally via `fail("cover_reset: current_cover == 0")`. -/
theorem cover_reset_no_context_fatal :
    cover_reset true none none = reset_outcome.fatal_no_context := rfl

/-- C5 (confirmed): the bitness detector returns 64-bit whenever the
executor's own pointer width is 8 bytes, for every possible content of the
symbol-table pseudo-file; otherwise it returns 32-bit exactly when
`/proc/kallsyms` can be opened, the full 16-byte prefix of its first line
is read, and the byte at position 8 (right after 8 hex digits of a 32-bit
address) is the space or tab separator; in every other case, including an
unreadable symbol table, it returns 64-bit. -/
theorem detect_kernel_bitness_spec :
    (∀ k, detect_kernel_bitness 8 k = true) ∧
    (∀ p k, p ≠ 8 →
      (detect_kernel_bitness p k = false ↔
        ∃ buf, k = some buf ∧ 16 ≤ buf.length ∧
          (buf.getD 8 0 = 32 ∨ buf.getD 8 0 = 9))) := by
  constructor
  · intro k
    unfold detect_kernel_bitness
    rw [if_pos rfl]
  · intro p k h
    unfold detect_kernel_bitness
    rw [if_neg h]
    cases k with
    | none => simp
    | some buf =>
      show (if 16 ≤ buf.length ∧ (buf.getD 8 0 = 32 ∨ buf.getD 8 0 = 9)
          then false else true) = false ↔ _
      by_cases hc : 16 ≤ buf.length ∧ (buf.getD 8 0 = 32 ∨ buf.getD 8 0 = 9)
      · rw [if_pos hc]
        simp only [true_iff, eq_self_iff_true]
        exact ⟨buf, rfl, hc.1, hc.2⟩
      · rw [if_neg hc]
        constructor
        · intro hfalse; exact absurd hfalse (by simp)
        · rintro ⟨buf2, heq, h1, h2⟩
          cases heq
          exact absurd ⟨h1, h2⟩ hc

/-- C5 witness: a 32-bit executor (`sizeof(void *) = 4`) atop a kallsyms
file whose first 16 bytes have a space at position 8 is detected as
32-bit. -/
theorem detect_kernel_bitness_spec_witness :
    detect_kernel_bitness 4 (some (List.replicate 16 32)) = false :=
  (detect_kernel_bitness_spec.2 4 (some (List.replicate 16 32))
      (by decide)).mpr
    ⟨List.replicate 16 32, rfl, by decide, Or.inl (by decide)⟩

/-- C6, counterexample: a descriptor named "prctl" that carries a custom
invocation routine (`c->call != NULL`) returns from `execute_syscall`
before the normalization, so with coverage disabled and result `-1` the
kernel's errno (here 13, `EACCES`) is passed through instead of being
forced to `EINVAL = 22`. -/
theorem execute_syscall_claim_cex :
    execute_syscall false { has_custom_call := true, name := "prctl" }
        (-1) 13 = (-1, 13) ∧
    (13 : Nat) ≠ EINVAL := by
  decide

/-- C6 (amended): when whole-run coverage is disabled and a call whose
descriptor is named "prctl" executes through the raw kernel call gate
(no custom invocation routine) and returns `-1`, the reported errno is
forced to `EINVAL` regardless of the errno value the kernel left set; for
every other call (including any descriptor with a custom invocation
routine), flag state, or return value, the result and errno pass through
unmodified. -/
theorem execute_syscall_prctl_normalization (fc : Bool) (c : call_t)
    (res : Int) (e : Nat) :
    (c.has_custom_call = false → fc = false → res = -1 → c.name = "prctl" →
      execute_syscall fc c res e = (res, EINVAL)) ∧
    (c.has_custom_call = true ∨ fc = true ∨ res ≠ -1 ∨ c.name ≠ "prctl" →
      execute_syscall fc c res e = (res, e)) := by
  constructor
  · intro h1 h2 h3 h4
    simp [execute_syscall, h1, h2, h3, h4]
  · rintro (h | h | h | h) <;> simp [execute_syscall, h]

/-- C6 witness: the amended normalization at the concrete input of a plain
"prctl" descriptor with coverage disabled, result `-1` and kernel errno 13:
the reported errno is `EINVAL = 22`. -/
theorem execute_syscall_prctl_normalization_witness :
    execute_syscall false { has_custom_call := false, name := "prctl" }
      (-1) 13 = (-1, EINVAL) :=
  (execute_syscall_prctl_normalization false
      { has_custom_call := false, name := "prctl" } (-1) 13).1
    rfl rfl rfl rfl

/-- C7 (confirmed): `doexit` never returns control to its caller: for every
status code, whether or not the raw `exit_group` request terminates the
process, and for every number of loop iterations, control has not flowed
back to the caller (the fuelled evaluation never yields `some ()`, because
the `for (i = 0;; i++)` loop's condition is constantly true). -/
theorem doexit_never_returns (b : Bool) (status : Int) (fuel : Nat) :
    doexit b status fuel = none := by
  unfold doexit
  cases b with
  | true => rfl
  | false =>
    simp only [if_false, Bool.false_eq_true, ite_false]
    exact doexit_loop_none fuel 0

/-- C9 (confirmed): the narrow remote-control-structure layout
`kcov_remote_arg<uint64_aligned32, 0>` has size exactly 20 bytes and the
wide layout `kcov_remote_arg<uint64_aligned64, 0>` has size exactly 24
bytes, matching the build-time asserts at lines 37-38. -/
theorem kcov_remote_arg_sizes :
    kcov_remote_arg32_sizeof = 20 ∧ kcov_remote_arg64_sizeof = 24 := by
  decide

/-- C10 (confirmed): `cover_check` returns `true` for every
program-counter value; no recorded address is ever filtered out. -/
theorem cover_check_always_true (pc : Nat) : cover_check pc = true := rfl

end ExecutorLinux

namespace ExecutorLinux

/-- C8, counterexample: the subsystem value `1 << 56` is at least 256, yet
`kcov_remote_handle ((1 << 56), 0)` returns `1 << 56`, not the sentinel 0:
the guard rejects bits outside the top byte, not values at or above 256. -/
theorem kcov_remote_handle_sentinel_claim_cex :
    256 ≤ (1 <<< 56 : Nat) ∧ kcov_remote_handle (1 <<< 56) 0 ≠ 0 := by
  decide

/-- C8 (amended): for 64-bit inputs, `kcov_remote_handle` returns the
sentinel 0 exactly when the subsystem has a bit set outside the top byte
(`subsystem mod 2 ^ 56 ≠ 0`), or the instance has a bit set outside the low
32 bits (`instance ≥ 2 ^ 32`), or both arguments are 0 (the reserved
"common, instance 0" pattern, whose encoding coincides with the sentinel).
In particular it returns 0 for every `256 ≤ subsystem < 2 ^ 56`, but not
for every `subsystem ≥ 256`. -/
theorem kcov_remote_handle_zero_iff (s i : Nat) (hs : s < 2 ^ 64)
    (hi : i < 2 ^ 64) :
    kcov_remote_handle s i = 0 ↔
      s % 2 ^ 56 ≠ 0 ∨ 2 ^ 32 ≤ i ∨ (s = 0 ∧ i = 0) := by
  have e1 : s &&& (U64_MAX ^^^ KCOV_SUBSYSTEM_MASK) = s % 2 ^ 56 := by
    rw [inv_subsystem_mask_eq, and_low56_eq_mod]
  have e2 : i &&& (U64_MAX ^^^ KCOV_INSTANCE_MASK) ≠ 0 ↔ 2 ^ 32 ≤ i := by
    rw [inv_instance_mask_eq]
    constructor
    · intro h
      by_contra hlt
      push_neg at hlt
      exact h (small_and_high32 hlt)
    · exact high32_and_ne_zero hi
  unfold kcov_remote_handle
  by_cases hg : s % 2 ^ 56 ≠ 0 ∨ 2 ^ 32 ≤ i
  · rw [if_pos]
    · simp only [eq_self_iff_true, true_iff]
      rcases hg with hg | hg
      · exact Or.inl hg
      · exact Or.inr (Or.inl hg)
    · rcases hg with hg | hg
      · exact Or.inl (by rw [e1]; exact hg)
      · exact Or.inr (e2.mpr hg)
  · push_neg at hg
    rw [if_neg]
    · rw [or_eq_zero_iff]
      constructor
      · intro hsi
        exact Or.inr (Or.inr hsi)
      · rintro (h | h | h)
        · exact absurd hg.1 h
        · exact absurd h (Nat.not_le.mpr hg.2)
        · exact h
    · rintro (h | h)
      · rw [e1] at h
        exact h hg.1
      · exact absurd (e2.mp h) (Nat.not_le.mpr hg.2)

/-- C8 witness: the amended characterization applied at the concrete input
`(subsystem, instance) = (256, 0)` (the spec's own scenario): the handle is
the sentinel 0 because 256 has a bit outside the top byte. -/
theorem kcov_remote_handle_zero_iff_witness :
    kcov_remote_handle 256 0 = 0 :=
  (kcov_remote_handle_zero_iff 256 0 (by norm_num) (by norm_num)).mpr
    (Or.inl (by norm_num))

end ExecutorLinux
